import Mathlib

/-!
Formal model of the SMS scam-filter classifier.

The classifier analyses a text message and returns a verdict (`isScam`), a
confidence value and a textual explanation.  The primary path delegates to a
remote chat-completion service; on any remote failure it falls back to a
deterministic local rule-based analysis.  This file embeds the rule-based
scoring, the explanation generation, and the mode-selection / sticky-failure
state machine, and proves the stated properties about them.

Modelling conventions:
* message texts are Lean `String`s (sequences of Unicode scalar values); the
  source's UTF-16 length coincides with the scalar count on the Basic
  Multilingual Plane, which covers every character class the rules use;
* numeric scores are rationals (`ℚ`); the source computes with IEEE doubles,
  whose arithmetic on these small dyadic-free sums agrees with the exact
  rational values for the magnitudes involved;
* the ECMAScript regular expressions of the rule list are embedded as
  regular expressions over `Char` and tested with a Brzozowski-derivative
  matcher; `test` is unanchored search, as in ECMAScript `RegExp.test`.
-/

namespace ScamFilter

/-- Result of one analysis (source type `AnalysisResult`): verdict,
confidence in percent, and a human-readable explanation. -/
structure AnalysisResult where
  isScam : Bool
  confidence : ℚ
  explanation : String
  deriving DecidableEq, Repr

/-! ### Character classes used by the pattern rules -/

/-- Inclusive codepoint-range test, modelling JS character comparisons such
as `c >= 'A' && c <= 'Z'` (string comparison on single characters). -/
def between (lo hi c : Char) : Bool :=
  lo.toNat ≤ c.toNat && c.toNat ≤ hi.toNat

/-- ASCII lower-casing: the case folding relevant to the `i` flag for the
ASCII literals appearing in the source's patterns. -/
def lowerAscii (c : Char) : Char :=
  if 65 ≤ c.toNat && c.toNat ≤ 90 then Char.ofNat (c.toNat + 32) else c

/-- The ECMAScript regex class `\s` (WhiteSpace plus LineTerminator). -/
def isJsWhitespace (c : Char) : Bool :=
  let n := c.toNat
  n == 9 || n == 10 || n == 11 || n == 12 || n == 13 || n == 32 || n == 160 ||
    n == 0x1680 || (0x2000 ≤ n && n ≤ 0x200a) || n == 0x2028 || n == 0x2029 ||
    n == 0x202f || n == 0x205f || n == 0x3000 || n == 0xfeff

/-- The ECMAScript regex class `\d`, exactly the ASCII digits. -/
def isDigitChar (c : Char) : Bool := between '0' '9' c

/-- The ECMAScript regex `.` without the `s` flag: any character except a
line terminator. -/
def isDotChar (c : Char) : Bool :=
  let n := c.toNat
  !(n == 10 || n == 13 || n == 0x2028 || n == 0x2029)

/-! ### Regular expressions and the derivative matcher -/

/-- Regular expressions over `Char`, sufficient for the source's rule
patterns: character predicates, concatenation, alternation, Kleene star. -/
inductive Regex : Type
  | fail : Regex
  | eps : Regex
  | pred (p : Char → Bool) : Regex
  | cat (r1 r2 : Regex) : Regex
  | alt (r1 r2 : Regex) : Regex
  | star (r : Regex) : Regex

/-- Does the regex accept the empty string? -/
def nullable : Regex → Bool
  | .fail => false
  | .eps => true
  | .pred _ => false
  | .cat a b => nullable a && nullable b
  | .alt a b => nullable a || nullable b
  | .star _ => true

/-- Smart concatenation (language-preserving simplification). -/
def mkCat : Regex → Regex → Regex
  | .fail, _ => .fail
  | _, .fail => .fail
  | .eps, r => r
  | r, .eps => r
  | a, b => .cat a b

/-- Smart alternation (language-preserving simplification). -/
def mkAlt : Regex → Regex → Regex
  | .fail, r => r
  | r, .fail => r
  | a, b => .alt a b

/-- Brzozowski derivative of a regex by one character. -/
def deriv : Regex → Char → Regex
  | .fail, _ => .fail
  | .eps, _ => .fail
  | .pred p, c => if p c then .eps else .fail
  | .cat a b, c =>
      if nullable a then mkAlt (mkCat (deriv a c) b) (deriv b c)
      else mkCat (deriv a c) b
  | .alt a b, c => mkAlt (deriv a c) (deriv b c)
  | .star r, c => mkCat (deriv r c) (.star r)

/-- Full-match of a regex against a character list. -/
def matchList (r : Regex) (cs : List Char) : Bool :=
  nullable (cs.foldl deriv r)

/-- A regex accepting any single character. -/
def anyCharR : Regex := .pred (fun _ => true)

/-- Unanchored search, the semantics of ECMAScript `RegExp.test`: some
substring of `s` is in the language of `r`. -/
def test (r : Regex) (s : String) : Bool :=
  matchList (mkCat (.star anyCharR) (mkCat r (.star anyCharR))) s.data

/-- Single literal character (case-sensitive). -/
def chC (c : Char) : Regex := .pred (fun x => x == c)

/-- Single literal character under the `i` flag (ASCII case folding). -/
def chCI (c : Char) : Regex := .pred (fun x => lowerAscii x == lowerAscii c)

/-- Case-sensitive literal string. -/
def strR (s : String) : Regex := s.data.foldr (fun c r => mkCat (chC c) r) .eps

/-- Case-insensitive literal string. -/
def strRI (s : String) : Regex := s.data.foldr (fun c r => mkCat (chCI c) r) .eps

/-- `r?` : zero or one occurrence. -/
def optR (r : Regex) : Regex := .alt .eps r

/-- `r{n}` : exactly `n` occurrences. -/
def repExact (r : Regex) : Nat → Regex
  | 0 => .eps
  | n + 1 => .cat r (repExact r n)

/-- `r{m,m+extra}` : between `m` and `m + extra` occurrences. -/
def repRange (r : Regex) (m extra : Nat) : Regex :=
  .cat (repExact r m) (repExact (optR r) extra)

/-- `r{m,}` : at least `m` occurrences. -/
def repAtLeast (r : Regex) (m : Nat) : Regex :=
  .cat (repExact r m) (.star r)

/-- `r+` : at least one occurrence. -/
def plusR (r : Regex) : Regex := repAtLeast r 1

/-! ### The pattern rule list (source: `scamPatterns`, lines 236-256) -/

/-- Rule 0, `/https?:\/\/[^\s]{1,20}\.[^\s]{2,5}/i` : short/suspicious links. -/
def pattern0 : Regex :=
  mkCat (strRI "http") (mkCat (optR (chCI 's')) (mkCat (strR "://")
    (mkCat (repRange (.pred (fun c => !isJsWhitespace c)) 1 19)
      (mkCat (chC '.') (repRange (.pred (fun c => !isJsWhitespace c)) 2 3)))))

/-- Rule 1, `/bitcoin|btc|crypto|ethereum|eth|usdt/i` : crypto terms. -/
def pattern1 : Regex :=
  .alt (strRI "bitcoin") (.alt (strRI "btc") (.alt (strRI "crypto")
    (.alt (strRI "ethereum") (.alt (strRI "eth") (strRI "usdt")))))

/-- Rule 2, `/\d{9,}/` : long numbers (potential account numbers). -/
def pattern2 : Regex := repAtLeast (.pred isDigitChar) 9

/-- Rule 3, `/urgent|verify|account.*suspend/i` : urgency and account issues. -/
def pattern3 : Regex :=
  .alt (strRI "urgent") (.alt (strRI "verify")
    (mkCat (strRI "account") (mkCat (.star (.pred isDotChar)) (strRI "suspend"))))

/-- Rule 4, `/limited time|act now|expires|deadline/i` : time pressure. -/
def pattern4 : Regex :=
  .alt (strRI "limited time") (.alt (strRI "act now")
    (.alt (strRI "expires") (strRI "deadline")))

/-- Rule 5, `/won|prize|claim|lottery|free money/i` : too-good-to-be-true offers. -/
def pattern5 : Regex :=
  .alt (strRI "won") (.alt (strRI "prize") (.alt (strRI "claim")
    (.alt (strRI "lottery") (strRI "free money"))))

/-- Rule 6, `/password|pin|ssn|social security/i` : personal info requests. -/
def pattern6 : Regex :=
  .alt (strRI "password") (.alt (strRI "pin")
    (.alt (strRI "ssn") (strRI "social security")))

/-- Rule 7, `/bank details|credit card|cvv|expiry/i` : financial info requests. -/
def pattern7 : Regex :=
  .alt (strRI "bank details") (.alt (strRI "credit card")
    (.alt (strRI "cvv") (strRI "expiry")))

/-- Rule 8, `/\$\d+,\d+|\d+\s*%\s*discount/i` : large money amounts. -/
def pattern8 : Regex :=
  .alt (mkCat (chC '$') (mkCat (plusR (.pred isDigitChar))
          (mkCat (chC ',') (plusR (.pred isDigitChar)))))
    (mkCat (plusR (.pred isDigitChar)) (mkCat (.star (.pred isJsWhitespace))
      (mkCat (chC '%') (mkCat (.star (.pred isJsWhitespace)) (strRI "discount")))))

/-- Rule 9, `/update.*account|confirm.*details/i` : account verification. -/
def pattern9 : Regex :=
  .alt (mkCat (strRI "update") (mkCat (.star (.pred isDotChar)) (strRI "account")))
    (mkCat (strRI "confirm") (mkCat (.star (.pred isDotChar)) (strRI "details")))

/-- Rule 10, `/western union|moneygram|wire transfer/i` : payment methods
common in scams. -/
def pattern10 : Regex :=
  .alt (strRI "western union") (.alt (strRI "moneygram") (strRI "wire transfer"))

/-- Rule 11, `/[!?]{2,}/` : multiple exclamation/question marks. -/
def pattern11 : Regex := repAtLeast (.pred (fun c => c == '!' || c == '?')) 2

/-- Rule 12, `/[A-Z]{5,}/` : words in all caps. -/
def pattern12 : Regex := repAtLeast (.pred (between 'A' 'Z')) 5

/-- Rule 13, `/\d{1,3}[,.]\d{3}[,.]\d{3}/` : large monetary amounts with
thousands separators. -/
def pattern13 : Regex :=
  mkCat (repRange (.pred isDigitChar) 1 2)
    (mkCat (.pred (fun c => c == ',' || c == '.'))
      (mkCat (repExact (.pred isDigitChar) 3)
        (mkCat (.pred (fun c => c == ',' || c == '.'))
          (repExact (.pred isDigitChar) 3))))

/-- The ordered rule list, mirroring the source's `scamPatterns` array. -/
def scamPatterns : List Regex :=
  [pattern0, pattern1, pattern2, pattern3, pattern4, pattern5, pattern6,
   pattern7, pattern8, pattern9, pattern10, pattern11, pattern12, pattern13]

/-! ### Scoring (source: `performOfflineAnalysis`, lines 258-285) -/

/-- Indices of the rules whose pattern matches the text, in increasing
order — the source's `matchedPatterns` array built by the loop over
`scamPatterns` (lines 258-267). -/
def matchedPatterns (text : String) : List Nat :=
  (List.range scamPatterns.length).filter
    (fun i => test (scamPatterns.getD i .fail) text)

/-- Number of distinct rules that match — the source's `matchCount`. -/
def matchCount (text : String) : Nat := (matchedPatterns text).length

/-- `Math.min(messageText.length / 20, 5)` (line 270). -/
def lengthScore (text : String) : ℚ := min ((text.length : ℚ) / 20) 5

/-- Left-to-right scan counting non-overlapping occurrences of an
http/https scheme prefix; `s?` is greedy, so `https://` is preferred where
both alternatives match.  The scan consumes at least one character per
step, so the structural fuel (initialised to the list length by
`countUrls`) never runs out. -/
def countUrlsAux : Nat → List Char → Nat
  | 0, _ => 0
  | _, [] => 0
  | fuel + 1, c :: cs =>
    if ("https://".data).isPrefixOf (c :: cs) then
      1 + countUrlsAux fuel (cs.drop 7)
    else if ("http://".data).isPrefixOf (c :: cs) then
      1 + countUrlsAux fuel (cs.drop 6)
    else countUrlsAux fuel cs

/-- Number of matches of the global regex `/https?:\/\//g` (line 271). -/
def countUrls (cs : List Char) : Nat := countUrlsAux cs.length cs

/-- Occurrence count of an http/https scheme prefix in the text. -/
def urlOccurrences (text : String) : Nat := countUrls text.data

/-- The source's `urlCount` (line 271): each URL adds 10 points. -/
def urlCount (text : String) : ℚ := (urlOccurrences text : ℚ) * 10

/-- Fraction of characters in the ASCII range `'A'..'Z'`, divided by the
total character count (lines 272-274).  For the empty text the source
divides 0 by 0, giving NaN; every comparison with NaN is false, which the
rational convention 0 / 0 = 0 reproduces for the one comparison made. -/
def capsPercentage (text : String) : ℚ :=
  ((text.data.filter (between 'A' 'Z')).length : ℚ) / (text.length : ℚ)

/-- More than 30 percent caps gets 10 points (line 275). -/
def capsScore (text : String) : ℚ :=
  if capsPercentage text > 0.3 then 10 else 0

/-- `matchCount * 10 + lengthScore + urlCount + capsScore` (line 278). -/
def totalScore (text : String) : ℚ :=
  (matchCount text : ℚ) * 10 + lengthScore text + urlCount text + capsScore text

/-- Normalisation to the 0-100 scale (line 281). -/
def confidenceScore (text : String) : ℚ := min (totalScore text) 100

/-- The fixed classification threshold (line 284). -/
def scamThreshold : ℚ := 30

/-- `confidenceScore >= scamThreshold` (line 285). -/
def isScamVerdict (text : String) : Bool :=
  decide (scamThreshold ≤ confidenceScore text)

/-! ### Explanation generation (lines 287-328) -/

/-- Decimal rendering of a nonnegative score with one fractional digit,
modelling `Number.toFixed(1)` (idealised: exact rational rounding, half away
from zero, in place of the rounding of the decimal value of the double). -/
def toFixed1 (q : ℚ) : String :=
  let n : Int := (q * 10 + 1 / 2).floor
  toString (n / 10) ++ "." ++ toString ((n % 10).toNat)

/-- The indicator descriptions pushed in source order (lines 294-307):
links, crypto terms, sensitive numbers, the urgency/pressure group (rules
3-9), the formatting group (rules 10 and above), then the URL count when
positive. -/
def scamIndicators (text : String) : List String :=
  (if (matchedPatterns text).contains 0 then ["suspicious links"] else []) ++
  (if (matchedPatterns text).contains 1 then ["cryptocurrency references"] else []) ++
  (if (matchedPatterns text).contains 2 then ["sensitive numbers"] else []) ++
  (if (matchedPatterns text).any (fun p => 3 ≤ p && p ≤ 9) then
    ["urgency/pressure tactics"] else []) ++
  (if (matchedPatterns text).any (fun p => 10 ≤ p) then
    ["suspicious formatting"] else []) ++
  (if 0 < urlCount text then [toString (urlOccurrences text) ++ " URLs"] else [])

/-- The scam-branch explanation (lines 289-314): header with indicator count
and score, the joined indicator list when any rule matched, and the caps
sentence when `capsScore` is positive. -/
def scamBranchText (text : String) : String :=
  "Rule-based analysis detected " ++ toString (matchCount text) ++
    " potential scam indicators with a confidence score of " ++
    toFixed1 (confidenceScore text) ++ "." ++
  (if 0 < (matchedPatterns text).length then
    " Suspicious elements include: " ++
      String.intercalate ", " (scamIndicators text)
  else "") ++
  (if 0 < capsScore text then
    " The message contains excessive use of capital letters."
  else "")

/-- The safe-branch explanation (lines 315-324). -/
def safeBranchText (text : String) : String :=
  "Rule-based analysis found limited scam indicators (score: " ++
    toFixed1 (confidenceScore text) ++ ")." ++
  (if 0 < matchCount text then
    " Some potentially concerning elements were found, but they didn\x27t reach the threshold for classification as a scam."
  else " No common scam patterns were detected.")

/-- Full explanation: the verdict branch plus the fixed disclaimer
(lines 326-328). -/
def explanationText (text : String) : String :=
  (if isScamVerdict text then scamBranchText text else safeBranchText text) ++
    " Note: This analysis uses rule-based detection without AI assistance."

/-- Rule-based analysis (source: `performOfflineAnalysis`, lines 234-335).
The returned confidence is `confidenceScore` for a scam verdict and
`100 - confidenceScore` otherwise (lines 330-334). -/
def performOfflineAnalysis (messageText : String) : AnalysisResult :=
  { isScam := isScamVerdict messageText
    confidence :=
      if isScamVerdict messageText then confidenceScore messageText
      else 100 - confidenceScore messageText
    explanation := explanationText messageText }

/-! ### Mode selection and the sticky quota flag

The `ScamChecker` class holds a possibly-initialised remote client
(`openai`), a resolved configuration and an instance offline flag, plus a
static process-wide `quotaExceeded` flag shared by all instances.  The
class methods are embedded as explicit state-passing functions; the static
flag is threaded separately so that sharing across instances is visible. -/

/-- Constructor argument (source type `ScamCheckerConfig`): every field
optional. -/
structure ScamCheckerConfig where
  apiKey : Option String := none
  model : Option String := none
  temperature : Option ℚ := none
  forceOfflineMode : Option Bool := none
  deriving DecidableEq, Repr

/-- The configuration after the constructor's defaulting (source field
`config : Required<ScamCheckerConfig>`). -/
structure ResolvedConfig where
  apiKey : String
  model : String
  temperature : ℚ
  forceOfflineMode : Bool
  deriving DecidableEq, Repr

/-- Instance state of a `ScamChecker`: whether the remote client is
initialised (`openai` non-null in the source), the resolved configuration,
and the instance offline flag. -/
structure ScamCheckerState where
  openai : Bool
  config : ResolvedConfig
  isOfflineMode : Bool
  deriving DecidableEq, Repr

/-- JS `a || b` on an optional string with falsy empty string: the source's
credential-resolution chains (lines 40-41, 62-75). -/
def jsOrString (a : Option String) (b : String) : String :=
  match a with
  | some s => if s = "" then b else s
  | none => b

/-- Client initialisation (source `initOpenAI`, lines 84-104): with no API
key, switch the instance to offline mode; otherwise construct the client.
Constructing the client with a nonempty key and `dangerouslyAllowBrowser`
does not throw, so the defensive catch branch is not reachable. -/
def initOpenAI (s : ScamCheckerState) : ScamCheckerState :=
  if s.config.apiKey = "" then { s with isOfflineMode := true }
  else { s with openai := true }

/-- The constructor (source lines 37-52).  `envApiKey` stands for the
credential found in the environment by `getEnvironmentApiKey`, if any.
Defaults: key from config else environment else empty; model
`gpt-3.5-turbo`; temperature 0.3; forced-offline off.  When offline mode is
forced the client is never initialised; otherwise `initOpenAI` runs. -/
def mkScamChecker (cfg : ScamCheckerConfig) (envApiKey : Option String) :
    ScamCheckerState :=
  let rc : ResolvedConfig :=
    { apiKey := jsOrString cfg.apiKey (jsOrString envApiKey "")
      model := jsOrString cfg.model "gpt-3.5-turbo"
      temperature := cfg.temperature.getD 0.3
      forceOfflineMode := cfg.forceOfflineMode.getD false }
  let base : ScamCheckerState :=
    { openai := false, config := rc, isOfflineMode := false }
  if rc.forceOfflineMode then { base with isOfflineMode := true }
  else initOpenAI base

/-- `setApiKey` (source lines 109-113): store the new key, reset the
instance offline flag, re-run `initOpenAI`.  The static `quotaExceeded`
flag is threaded through untouched, as the method body never reads or
writes it. -/
def setApiKey (s : ScamCheckerState) (quotaExceeded : Bool)
    (apiKey : String) : ScamCheckerState × Bool :=
  (initOpenAI
    { s with config := { s.config with apiKey := apiKey }
             isOfflineMode := false }, quotaExceeded)

/-- `setOfflineMode` (source lines 118-123): set the instance offline flag;
when disabling offline mode with no client present, re-run `initOpenAI`.
The static `quotaExceeded` flag is threaded through untouched. -/
def setOfflineMode (s : ScamCheckerState) (quotaExceeded : Bool)
    (enabled : Bool) : ScamCheckerState × Bool :=
  let s1 := { s with isOfflineMode := enabled }
  (if !enabled && !s1.openai then initOpenAI s1 else s1, quotaExceeded)

/-- `resetQuotaStatus` (source lines 341-347): force the static flag back
to false. -/
def resetQuotaStatus (_quotaExceeded : Bool) : Bool := false

/-- Outcome of the single remote attempt a `checkMessage` call may make,
as observed by the surrounding `try`/`catch` (source lines 143-228). -/
inductive RemoteBehavior : Type
  /-- The chat-completion request throws an error carrying a message
  string (transport error, timeout, API refusal and the like). -/
  | throwWithMessage (msg : String) : RemoteBehavior
  /-- The request throws a value with no string `message` field, so the
  `isOpenAIError` guard rejects it. -/
  | throwNonError : RemoteBehavior
  /-- A response arrives but `choices[0].message.content` is empty. -/
  | emptyContent : RemoteBehavior
  /-- Content arrives but `JSON.parse` throws; `msg` is the message of the
  thrown `SyntaxError`. -/
  | parseFailure (msg : String) : RemoteBehavior
  /-- The JSON parses but one of `isScam`/`confidence`/`explanation` has
  the wrong type. -/
  | mistyped : RemoteBehavior
  /-- A well-typed response with the three expected fields. -/
  | wellTyped (isScam : Bool) (confidence : ℚ) (explanation : String) :
      RemoteBehavior
  deriving DecidableEq, Repr

/-- The message of the error reaching the `catch` block, when the guard
`isOpenAIError` accepts it: failures inside the `try` either propagate the
thrown error (`throwWithMessage`, `throwNonError`, `parseFailure`) or throw
the fixed `Error` constructed at lines 175 and 186. -/
def caughtMessage : RemoteBehavior → Option String
  | .throwWithMessage m => some m
  | .throwNonError => none
  | .emptyContent => some "Empty response from OpenAI"
  | .parseFailure m => some m
  | .mistyped => some "Invalid response format from OpenAI"
  | .wellTyped _ _ _ => none

/-- JS `String.prototype.includes`: substring containment. -/
def containsSubstring (hay needle : String) : Bool :=
  (List.range (hay.data.length + 1)).any
    (fun i => needle.data.isPrefixOf (hay.data.drop i))

/-- The quota/rate-limit signature test on a caught error message
(source lines 211-215). -/
def hasQuotaSignature (msg : String) : Bool :=
  containsSubstring msg "429" ||
    containsSubstring msg "exceeded your current quota" ||
    containsSubstring msg "rate limit"

/-- Everything one `checkMessage` call produces: the returned result, the
updated instance state, the updated static flag, and whether an outbound
remote request was issued. -/
structure CheckOutcome where
  result : AnalysisResult
  state : ScamCheckerState
  quotaExceeded : Bool
  calledRemote : Bool
  deriving DecidableEq, Repr

/-- `checkMessage` (source lines 131-229).  Order of decisions: the static
quota flag first, then the instance offline flag / missing client, then the
single remote attempt with its validation, clamp and `catch` fallback. -/
def checkMessage (s : ScamCheckerState) (quotaExceeded : Bool)
    (messageText : String) (remote : RemoteBehavior) : CheckOutcome :=
  if quotaExceeded then
    { result := performOfflineAnalysis messageText, state := s
      quotaExceeded := quotaExceeded, calledRemote := false }
  else if s.isOfflineMode || !s.openai then
    { result := performOfflineAnalysis messageText, state := s
      quotaExceeded := quotaExceeded, calledRemote := false }
  else
    match remote with
    | .wellTyped b c e =>
      { result := { isScam := b, confidence := max 0 (min 100 c)
                    explanation := e }
        state := s, quotaExceeded := quotaExceeded, calledRemote := true }
    | other =>
      match caughtMessage other with
      | some m =>
        if hasQuotaSignature m then
          { result := performOfflineAnalysis messageText
            state := { s with isOfflineMode := true }
            quotaExceeded := true, calledRemote := true }
        else
          { result := performOfflineAnalysis messageText, state := s
            quotaExceeded := quotaExceeded, calledRemote := true }
      | none =>
        { result := performOfflineAnalysis messageText, state := s
          quotaExceeded := quotaExceeded, calledRemote := true }

/-- A sequence of `checkMessage` calls against one shared static flag, each
possibly on a different instance (the instance state for each call is
supplied explicitly).  Returns each call's text paired with its outcome,
threading the static flag from call to call. -/
def runSharedChecks (quotaExceeded : Bool) :
    List (ScamCheckerState × String × RemoteBehavior) →
      List (String × CheckOutcome)
  | [] => []
  | (s, text, b) :: rest =>
    let o := checkMessage s quotaExceeded text b
    (text, o) :: runSharedChecks o.quotaExceeded rest

/-- A sequence of `checkMessage` calls on one instance, threading both the
instance state and the static flag. -/
def runInstanceChecks (s : ScamCheckerState) (quotaExceeded : Bool) :
    List (String × RemoteBehavior) → List (String × CheckOutcome)
  | [] => []
  | (text, b) :: rest =>
    let o := checkMessage s quotaExceeded text b
    (text, o) :: runInstanceChecks o.state o.quotaExceeded rest

/-- The spec's canonical explanation category list: the ordered candidate
categories — links, crypto terms, sensitive numbers, the urgency/pressure
tactics group, the suspicious-formatting group, then the URL count when
nonzero — restricted to the triggered ones. -/
def canonicalIndicators (text : String) : List String :=
  ([("suspicious links", (matchedPatterns text).contains 0),
    ("cryptocurrency references", (matchedPatterns text).contains 1),
    ("sensitive numbers", (matchedPatterns text).contains 2),
    ("urgency/pressure tactics",
      (matchedPatterns text).any (fun p => 3 ≤ p && p ≤ 9)),
    ("suspicious formatting", (matchedPatterns text).any (fun p => 10 ≤ p)),
    (toString (urlOccurrences text) ++ " URLs",
      !(urlOccurrences text == 0))].filter (fun pr => pr.2)).map
    (fun pr => pr.1)

/-! ### Helper lemmas -/

theorem lengthScore_nonneg (text : String) : 0 ≤ lengthScore text :=
  le_min (by positivity) (by norm_num)

theorem capsScore_nonneg (text : String) : 0 ≤ capsScore text := by
  unfold capsScore
  split <;> norm_num

theorem totalScore_nonneg (text : String) : 0 ≤ totalScore text := by
  unfold totalScore
  have h1 : (0 : ℚ) ≤ (matchCount text : ℚ) * 10 := by positivity
  have h2 : (0 : ℚ) ≤ urlCount text := by unfold urlCount; positivity
  have h3 := lengthScore_nonneg text
  have h4 := capsScore_nonneg text
  linarith

theorem confidenceScore_nonneg (text : String) : 0 ≤ confidenceScore text :=
  le_min (totalScore_nonneg text) (by norm_num)

theorem confidenceScore_le_100 (text : String) : confidenceScore text ≤ 100 :=
  min_le_right _ _

theorem offline_confidence_range (text : String) :
    0 ≤ (performOfflineAnalysis text).confidence ∧
      (performOfflineAnalysis text).confidence ≤ 100 := by
  have h0 := confidenceScore_nonneg text
  have h1 := confidenceScore_le_100 text
  unfold performOfflineAnalysis
  constructor <;> dsimp only <;> split <;> linarith

/-- On an offline call (quota flag set, instance offline, or no client),
and on every failure path, `checkMessage` returns the heuristic result. -/
theorem checkMessage_offline (s : ScamCheckerState) (q : Bool)
    (text : String) (b : RemoteBehavior) (h : q = true ∨ s.isOfflineMode = true ∨ s.openai = false) :
    checkMessage s q text b =
      { result := performOfflineAnalysis text, state := s
        quotaExceeded := q, calledRemote := false } := by
  unfold checkMessage
  cases q
  · rcases h with h | h | h
    · exact Bool.noConfusion h
    · simp [h]
    · simp [h]
  · simp

/-! ### The claims -/

/-- C1: for every input text, the heuristic classifier computes its
verdict exactly by the specified scoring algorithm: `matchCount` counts the
distinct pattern rules that match (each rule at most once),
`totalScore = 10*matchCount + min(textLength/20, 5) + 10*urlOccurrences +
capsScore`, `confidenceScore = min(totalScore, 100)`, and `isScam` holds
iff `confidenceScore ≥ 30`. -/
theorem offline_scoring_spec (text : String) :
    ((performOfflineAnalysis text).isScam = true ↔
        30 ≤ confidenceScore text)
      ∧ confidenceScore text = min (totalScore text) 100
      ∧ totalScore text
          = 10 * (matchCount text : ℚ) + min ((text.length : ℚ) / 20) 5
            + 10 * (urlOccurrences text : ℚ) + capsScore text
      ∧ matchCount text = (matchedPatterns text).length
      ∧ (matchedPatterns text).Nodup
      ∧ ∀ i, i ∈ matchedPatterns text ↔
          i < scamPatterns.length ∧ test (scamPatterns.getD i .fail) text = true := by
  refine ⟨?_, rfl, ?_, rfl, ?_, ?_⟩
  · simp [performOfflineAnalysis, isScamVerdict, scamThreshold]
  · unfold totalScore lengthScore urlCount
    ring
  · exact (List.nodup_range _).filter _
  · intro i
    simp [matchedPatterns, List.mem_filter, List.mem_range, and_comm]

/-- C2: the returned confidence follows the asymmetric convention: for a
scam verdict it equals `confidenceScore`, otherwise it equals
`100 - confidenceScore`. -/
theorem asymmetric_confidence (text : String) :
    ((performOfflineAnalysis text).isScam = true →
        (performOfflineAnalysis text).confidence = confidenceScore text)
      ∧ ((performOfflineAnalysis text).isScam = false →
        (performOfflineAnalysis text).confidence
            + confidenceScore text = 100) := by
  unfold performOfflineAnalysis
  constructor <;> intro h <;> dsimp only at h ⊢ <;> simp [h]

set_option maxRecDepth 80000 in
unseal Rat.add Rat.sub Rat.mul Rat.inv Rat.ofScientific in
theorem asymmetric_confidence_witness :
    (performOfflineAnalysis "URGENT!!! verify account 123456789").confidence
        = confidenceScore "URGENT!!! verify account 123456789"
      ∧ (performOfflineAnalysis "Hello").confidence
          + confidenceScore "Hello" = 100 :=
  ⟨(asymmetric_confidence _).1 (by decide),
   (asymmetric_confidence _).2 (by decide)⟩

/-- C3: every `AnalysisResult` returned by `checkMessage` — remote path
after the clamp, or heuristic fallback — has confidence in `[0, 100]`, for
every state, input text and remote behavior. -/
theorem confidence_in_range (s : ScamCheckerState) (q : Bool)
    (text : String) (b : RemoteBehavior) :
    0 ≤ (checkMessage s q text b).result.confidence
      ∧ (checkMessage s q text b).result.confidence ≤ 100 := by
  unfold checkMessage
  split
  · exact offline_confidence_range text
  split
  · exact offline_confidence_range text
  cases b <;> simp only [caughtMessage]
  case wellTyped bb cc ee =>
    refine ⟨le_max_left _ _, max_le (by norm_num) ?_⟩
    exact le_trans (min_le_left _ _) (by norm_num)
  all_goals first
    | exact offline_confidence_range text
    | (split <;> exact offline_confidence_range text)

set_option maxRecDepth 80000 in
unseal Rat.add Rat.sub Rat.mul Rat.inv Rat.ofScientific in
/-- C7: the core imposes no non-empty precondition: the empty string is
classified with score 0 (the caps fraction's division by the zero length
yields 0, not a firing caps score), `isScam = false` and confidence 100. -/
theorem empty_message_safe :
    performOfflineAnalysis "" =
        { isScam := false, confidence := 100,
          explanation := "Rule-based analysis found limited scam indicators (score: 0.0). No common scam patterns were detected. Note: This analysis uses rule-based detection without AI assistance." }
      ∧ confidenceScore "" = 0
      ∧ capsPercentage "" = 0
      ∧ capsScore "" = 0 := by
  decide

/-- C10: the capitalization heuristic counts only ASCII characters between
`'A'` and `'Z'` in the numerator and divides by the total character count;
consequently any text none of whose characters lies in that ASCII range —
in particular text whose uppercase letters are all non-ASCII — has
`capsScore = 0`. -/
theorem caps_ascii_only (text : String) :
    capsPercentage text
        = ((text.data.filter (between 'A' 'Z')).length : ℚ)
            / (text.length : ℚ)
      ∧ ((∀ c ∈ text.data, between 'A' 'Z' c = false) →
          capsScore text = 0) := by
  refine ⟨rfl, fun h => ?_⟩
  have hf : text.data.filter (between 'A' 'Z') = [] := by
    rw [List.filter_eq_nil_iff]
    intro c hc
    simp [h c hc]
  unfold capsScore capsPercentage
  rw [hf]
  norm_num

unseal Rat.ofScientific in
theorem caps_ascii_only_witness : capsScore "ΓΔΘΛΞΠ ΣΦΨΩ" = 0 :=
  (caps_ascii_only _).2 (by decide)

/-- C4: a remote failure carrying a quota/rate-limit signature sets the
process-wide `quotaExceeded` flag; once the flag is true, every subsequent
`checkMessage` call on any instance skips the remote attempt, returns the
heuristic result and keeps the flag true; `setApiKey` and `setOfflineMode`
never touch the flag; only `resetQuotaStatus` clears it. -/
theorem quota_sticky :
    (∀ (s : ScamCheckerState) (text : String) (b : RemoteBehavior)
        (m : String), s.isOfflineMode = false → s.openai = true →
        caughtMessage b = some m → hasQuotaSignature m = true →
        (checkMessage s false text b).quotaExceeded = true)
      ∧ (∀ calls : List (ScamCheckerState × String × RemoteBehavior),
          ∀ p ∈ runSharedChecks true calls,
            p.2.calledRemote = false
              ∧ p.2.result = performOfflineAnalysis p.1
              ∧ p.2.quotaExceeded = true)
      ∧ (∀ (s : ScamCheckerState) (q : Bool) (k : String),
          (setApiKey s q k).2 = q)
      ∧ (∀ (s : ScamCheckerState) (q e : Bool),
          (setOfflineMode s q e).2 = q)
      ∧ (∀ q : Bool, resetQuotaStatus q = false) := by
  refine ⟨?_, ?_, fun _ _ _ => rfl, fun _ _ _ => rfl, fun _ => rfl⟩
  · intro s text b m h1 h2 h3 h4
    cases b <;> cases h3 <;> simp [checkMessage, caughtMessage, h1, h2, h4]
  · intro calls
    induction calls with
    | nil => intro p hp; simp [runSharedChecks] at hp
    | cons head rest ih =>
      obtain ⟨s, t, b⟩ := head
      intro p hp
      simp only [runSharedChecks] at hp
      rw [checkMessage_offline s true t b (Or.inl rfl)] at hp
      rcases List.mem_cons.mp hp with hp | hp
      · subst hp; exact ⟨rfl, rfl, rfl⟩
      · exact ih p hp

set_option maxRecDepth 80000 in
unseal Rat.add Rat.sub Rat.mul Rat.inv Rat.ofScientific in
theorem quota_sticky_witness :
    (checkMessage
        { openai := true
          config := { apiKey := "sk", model := "gpt-3.5-turbo"
                      temperature := 0.3, forceOfflineMode := false }
          isOfflineMode := false }
        false "win a prize" (.throwWithMessage "429 too many requests")
      ).quotaExceeded = true
      ∧ ((checkMessage
            { openai := true
              config := { apiKey := "sk", model := "gpt-3.5-turbo"
                          temperature := 0.3, forceOfflineMode := false }
              isOfflineMode := false }
            true "hi" .emptyContent).calledRemote = false
          ∧ (checkMessage
              { openai := true
                config := { apiKey := "sk", model := "gpt-3.5-turbo"
                            temperature := 0.3, forceOfflineMode := false }
                isOfflineMode := false }
              true "hi" .emptyContent).result = performOfflineAnalysis "hi"
          ∧ (checkMessage
              { openai := true
                config := { apiKey := "sk", model := "gpt-3.5-turbo"
                            temperature := 0.3, forceOfflineMode := false }
                isOfflineMode := false }
              true "hi" .emptyContent).quotaExceeded = true)
      ∧ (setApiKey
          { openai := true
            config := { apiKey := "sk", model := "gpt-3.5-turbo"
                        temperature := 0.3, forceOfflineMode := false }
            isOfflineMode := false } true "sk2").2 = true
      ∧ resetQuotaStatus true = false :=
  ⟨quota_sticky.1 _ _ _ _ rfl rfl rfl (by decide),
   quota_sticky.2.1
     [({ openai := true
         config := { apiKey := "sk", model := "gpt-3.5-turbo"
                     temperature := 0.3, forceOfflineMode := false }
         isOfflineMode := false }, "hi", .emptyContent)]
     _ (List.Mem.head _),
   quota_sticky.2.2.1 _ true "sk2",
   quota_sticky.2.2.2.2 true⟩

/-- C5: `checkMessage` never surfaces a remote failure: on every failure
class (thrown transport error, empty content, JSON parse failure, mistyped
field, or a thrown value with no message) it returns the heuristic result
for the same text, and when the failure carries no quota signature it
leaves both the instance state and the sticky flag unchanged, so the next
call attempts the remote path again. -/
theorem remote_failure_fallback (s : ScamCheckerState) (text : String)
    (b : RemoteBehavior) (hoff : s.isOfflineMode = false)
    (hcl : s.openai = true)
    (hfail : ∀ bb cc ee, b ≠ .wellTyped bb cc ee) :
    (checkMessage s false text b).result = performOfflineAnalysis text
      ∧ ((∀ m, caughtMessage b = some m → hasQuotaSignature m = false) →
          (checkMessage s false text b).state = s
            ∧ (checkMessage s false text b).quotaExceeded = false) := by
  cases b
  case wellTyped bb cc ee => exact absurd rfl (hfail bb cc ee)
  case throwNonError =>
    refine ⟨?_, fun _ => ⟨?_, ?_⟩⟩ <;>
      simp [checkMessage, hoff, hcl, caughtMessage]
  case throwWithMessage m' =>
    refine ⟨?_, fun hnq => ?_⟩
    · simp only [checkMessage, hoff, hcl, caughtMessage]
      split_ifs <;> rfl
    · have hm := hnq m' rfl
      constructor <;> simp [checkMessage, hoff, hcl, caughtMessage, hm]
  case parseFailure m' =>
    refine ⟨?_, fun hnq => ?_⟩
    · simp only [checkMessage, hoff, hcl, caughtMessage]
      split_ifs <;> rfl
    · have hm := hnq m' rfl
      constructor <;> simp [checkMessage, hoff, hcl, caughtMessage, hm]
  case emptyContent =>
    refine ⟨?_, fun hnq => ?_⟩
    · simp only [checkMessage, hoff, hcl, caughtMessage]
      split_ifs <;> rfl
    · have hm := hnq _ rfl
      constructor <;> simp [checkMessage, hoff, hcl, caughtMessage, hm]
  case mistyped =>
    refine ⟨?_, fun hnq => ?_⟩
    · simp only [checkMessage, hoff, hcl, caughtMessage]
      split_ifs <;> rfl
    · have hm := hnq _ rfl
      constructor <;> simp [checkMessage, hoff, hcl, caughtMessage, hm]

theorem remote_failure_fallback_witness :
    (checkMessage
        { openai := true
          config := { apiKey := "sk", model := "gpt-3.5-turbo"
                      temperature := 0.3, forceOfflineMode := false }
          isOfflineMode := false }
        false "hello" (.parseFailure "Unexpected token u in JSON")).result
        = performOfflineAnalysis "hello"
      ∧ (checkMessage
          { openai := true
            config := { apiKey := "sk", model := "gpt-3.5-turbo"
                        temperature := 0.3, forceOfflineMode := false }
            isOfflineMode := false }
          false "hello" (.parseFailure "Unexpected token u in JSON")).state
          = { openai := true
              config := { apiKey := "sk", model := "gpt-3.5-turbo"
                          temperature := 0.3, forceOfflineMode := false }
              isOfflineMode := false }
      ∧ (checkMessage
          { openai := true
            config := { apiKey := "sk", model := "gpt-3.5-turbo"
                        temperature := 0.3, forceOfflineMode := false }
            isOfflineMode := false }
          false "hello" (.parseFailure "Unexpected token u in JSON")
        ).quotaExceeded = false :=
  have h := remote_failure_fallback
    { openai := true
      config := { apiKey := "sk", model := "gpt-3.5-turbo"
                  temperature := 0.3, forceOfflineMode := false }
      isOfflineMode := false }
    "hello" (.parseFailure "Unexpected token u in JSON") rfl rfl
    (fun _ _ _ hh => RemoteBehavior.noConfusion hh)
  have h2 := h.2 (fun m hm => by cases hm; decide)
  ⟨h.1, h2.1, h2.2⟩

/-- On an offline instance, a sequence of `checkMessage` calls never
issues a remote request, returns heuristic results throughout, and the
instance stays offline. -/
theorem offline_instance_trace (calls : List (String × RemoteBehavior)) :
    ∀ (s : ScamCheckerState) (q : Bool), s.isOfflineMode = true →
      ∀ p ∈ runInstanceChecks s q calls,
        p.2.calledRemote = false
          ∧ p.2.result = performOfflineAnalysis p.1 := by
  induction calls with
  | nil => intro s q h p hp; simp [runInstanceChecks] at hp
  | cons head rest ih =>
    obtain ⟨t, b⟩ := head
    intro s q h p hp
    simp only [runInstanceChecks] at hp
    rw [checkMessage_offline s q t b (Or.inr (Or.inl h))] at hp
    rcases List.mem_cons.mp hp with hp | hp
    · subst hp; exact ⟨rfl, rfl⟩
    · exact ih s q h p hp

/-- C6: an instance constructed with `forceOfflineMode = true` never
invokes the remote client: over any sequence of `checkMessage` calls and
any remote behaviors, no outbound request happens and every result is the
heuristic result for that call's text. -/
theorem forced_offline_no_remote (cfg : ScamCheckerConfig)
    (envApiKey : Option String) (q : Bool)
    (calls : List (String × RemoteBehavior))
    (h : cfg.forceOfflineMode = some true) :
    ∀ p ∈ runInstanceChecks (mkScamChecker cfg envApiKey) q calls,
      p.2.calledRemote = false
        ∧ p.2.result = performOfflineAnalysis p.1 := by
  apply offline_instance_trace
  simp [mkScamChecker, h]

theorem forced_offline_no_remote_witness :
    (checkMessage (mkScamChecker { forceOfflineMode := some true } none)
        false "ping" (.wellTyped true (50 : ℚ) "scam")).calledRemote = false
      ∧ (checkMessage (mkScamChecker { forceOfflineMode := some true } none)
          false "ping" (.wellTyped true (50 : ℚ) "scam")).result
          = performOfflineAnalysis "ping" :=
  forced_offline_no_remote { forceOfflineMode := some true } none false
    [("ping", .wellTyped true (50 : ℚ) "scam")] rfl
    ("ping",
      checkMessage (mkScamChecker { forceOfflineMode := some true } none)
        false "ping" (.wellTyped true (50 : ℚ) "scam"))
    (List.Mem.head _)

/-- C8: `setApiKey` stores the key, clears the instance offline flag and
re-attempts client initialisation — so the flag ends up set exactly when
the new key is empty, and a client is present whenever it is nonempty;
`setOfflineMode` sets the offline flag to the given value, re-initialising
the client when disabling offline mode with no client present (which
re-raises the flag when the stored key is empty); neither operation
changes the process-wide sticky `quotaExceeded` flag. -/
theorem config_ops_frame (s : ScamCheckerState) (q : Bool) (k : String)
    (e : Bool) :
    (setApiKey s q k).2 = q
      ∧ (setApiKey s q k).1.config.apiKey = k
      ∧ (setApiKey s q k).1.isOfflineMode = decide (k = "")
      ∧ (setApiKey s q k).1.openai = (if k = "" then s.openai else true)
      ∧ (setOfflineMode s q e).2 = q
      ∧ (setOfflineMode s q e).1.isOfflineMode
          = (e || (!s.openai && decide (s.config.apiKey = "")))
      ∧ (setOfflineMode s q e).1.openai
          = (s.openai || (!e && !decide (s.config.apiKey = ""))) := by
  unfold setApiKey setOfflineMode initOpenAI
  refine ⟨rfl, ?_, ?_, ?_, rfl, ?_, ?_⟩ <;>
    cases e <;> cases ho : s.openai <;>
      by_cases hk : k = "" <;> by_cases ha : s.config.apiKey = "" <;>
        simp [*]

theorem scamIndicators_eq_canonical (text : String) :
    scamIndicators text = canonicalIndicators text := by
  have hurl : (0 < urlCount text) ↔ ¬(urlOccurrences text == 0) = true := by
    unfold urlCount
    rcases Nat.eq_zero_or_pos (urlOccurrences text) with h | h
    · simp [h]
    · have hq : (0 : ℚ) < (urlOccurrences text : ℚ) := by exact_mod_cast h
      have hne := Nat.pos_iff_ne_zero.mp h
      constructor
      · intro _; simp [hne]
      · intro _; nlinarith
  unfold scamIndicators canonicalIndicators
  cases h0 : (matchedPatterns text).contains 0 <;>
  cases h1 : (matchedPatterns text).contains 1 <;>
  cases h2 : (matchedPatterns text).contains 2 <;>
  cases h3 : (matchedPatterns text).any (fun p => 3 ≤ p && p ≤ 9) <;>
  cases h4 : (matchedPatterns text).any (fun p => 10 ≤ p) <;>
  cases h5 : (urlOccurrences text == 0) <;>
  simp [h0, h1, h2, h3, h4, h5, hurl, List.filter]

set_option maxRecDepth 80000 in
unseal Rat.add Rat.sub Rat.mul Rat.inv Rat.ofScientific in
/-- C9 counterexample to the claim as stated: the text
`"http://a http://a http://a"` is classified as a scam (three URL
occurrences alone push the score past the threshold) and its URL count is
nonzero, yet the explanation lists no category at all — in particular not
the URL count — because no pattern rule matched. -/
theorem scam_explanation_counterexample :
    (performOfflineAnalysis "http://a http://a http://a").isScam = true
      ∧ 0 < urlOccurrences "http://a http://a http://a"
      ∧ matchCount "http://a http://a http://a" = 0
      ∧ containsSubstring
          (performOfflineAnalysis "http://a http://a http://a").explanation
          "URLs" = false := by
  decide

/-- C9 (amended): for every text classified as scam, the explanation
states the indicator count and the numeric score; when at least one
pattern rule matched, it then lists the triggered categories in the fixed
canonical order — links, crypto terms, sensitive numbers, the
urgency/pressure-tactics group, the suspicious-formatting group, then the
URL count if nonzero; it appends the caps-usage sentence exactly when
`capsScore > 0`; and it ends with the fixed rule-based disclaimer.  When
no pattern rule matched (possible for a scam verdict driven by the URL
count alone) the category list, the URL count item included, is omitted. -/
theorem scam_explanation_structure (text : String)
    (h : (performOfflineAnalysis text).isScam = true) :
    (performOfflineAnalysis text).explanation
        = "Rule-based analysis detected " ++ toString (matchCount text)
          ++ " potential scam indicators with a confidence score of "
          ++ toFixed1 (confidenceScore text) ++ "."
          ++ (if 0 < matchCount text then
                " Suspicious elements include: "
                  ++ String.intercalate ", " (canonicalIndicators text)
              else "")
          ++ (if 0 < capsScore text then
                " The message contains excessive use of capital letters."
              else "")
          ++ " Note: This analysis uses rule-based detection without AI assistance."
      ∧ scamIndicators text = canonicalIndicators text := by
  have hv : isScamVerdict text = true := h
  refine ⟨?_, scamIndicators_eq_canonical text⟩
  show explanationText text = _
  simp only [explanationText, scamBranchText, hv, if_true, matchCount,
    scamIndicators_eq_canonical]

set_option maxRecDepth 80000 in
unseal Rat.add Rat.sub Rat.mul Rat.inv Rat.ofScientific in
theorem scam_explanation_structure_witness :
    (performOfflineAnalysis "URGENT!!! verify account 123456789").explanation
        = "Rule-based analysis detected "
          ++ toString (matchCount "URGENT!!! verify account 123456789")
          ++ " potential scam indicators with a confidence score of "
          ++ toFixed1 (confidenceScore "URGENT!!! verify account 123456789")
          ++ "."
          ++ (if 0 < matchCount "URGENT!!! verify account 123456789" then
                " Suspicious elements include: "
                  ++ String.intercalate ", "
                      (canonicalIndicators "URGENT!!! verify account 123456789")
              else "")
          ++ (if 0 < capsScore "URGENT!!! verify account 123456789" then
                " The message contains excessive use of capital letters."
              else "")
          ++ " Note: This analysis uses rule-based detection without AI assistance."
      ∧ scamIndicators "URGENT!!! verify account 123456789"
          = canonicalIndicators "URGENT!!! verify account 123456789" :=
  scam_explanation_structure _ (by decide)

end ScamFilter
